import Mathlib

/-
Verification of the ReTrip image-analysis service (src/app.py) against its
natural-language specification.

The development shallowly embeds the code of the single Flask endpoint
`analyze_s3_images` together with its helpers `download_image_from_s3` and
`analyze_images_with_gpt4o`.  External collaborators (boto3 S3 client, PIL,
the OpenAI client, `json.loads`) are modelled as capabilities carried in an
environment record `AppEnv`; all decisions made by the repository's own code
(truthiness checks, extension filtering via `os.path.splitext`, branch
structure, response payloads, loop structure) are translated literally.

Conventions:
* JSON scalar values that the code only passes through are modelled as
  `String`; a Python value that may be absent is `Option String`, and Python
  truthiness of such a value (`if not x`) is `pyFalsy` (absent or empty).
* `boto3.list_objects_v2` returns at most one page of keys (its `MaxKeys`
  page limit, 1000 by default); the page limit is the model parameter
  `AppEnv.pageSize`.  The code performs exactly one such call.
* Exceptions of the S3 client are the `S3Error` values; exceptions of the
  PIL decode/convert/save pipeline are `PilError` values; `Except.error`
  marks a raised exception.
* `json.loads` is modelled as the abstract parser capability
  `AppEnv.jsonLoads`: `none` means `json.JSONDecodeError`, `some j` is the
  parsed document (kept opaque as a canonical string).
-/

/-- A per-item failure entry, `{"id": key, "reason": ...}` as appended to
`failed_images_info` in src/app.py. -/
structure FailureRecord where
  id : String
  reason : String
deriving DecidableEq, Repr

/-- Exceptions raised by the S3 client: `NoCredentialsError`, `ClientError`
(with error code and message), or any other exception. -/
inductive S3Error where
  | noCredentials : S3Error
  | clientError (code msg : String) : S3Error
  | otherExc (msg : String) : S3Error
deriving DecidableEq, Repr

/-- Exceptions raised by the PIL `Image.open(...).convert("RGB")` /
`image.save(buffer, "JPEG")` pipeline: `UnidentifiedImageError` or any
other exception (each carrying its rendered message `{e}`). -/
inductive PilError where
  | unidentified (msg : String) : PilError
  | otherExc (msg : String) : PilError
deriving DecidableEq, Repr

/-- One content element of the chat message sent to OpenAI: a
`{"type": "text", ...}` block or a `{"type": "image_url", ...}` block
(src/app.py lines 88-91). -/
inductive ContentBlock where
  | text (s : String) : ContentBlock
  | imageUrl (url : String) : ContentBlock
deriving DecidableEq, Repr

/-- One chat message (`{"role": ..., "content": [...]}`). -/
structure ChatMessage where
  role : String
  content : List ContentBlock
deriving DecidableEq, Repr

/-- The request passed to `client.chat.completions.create`
(src/app.py lines 93-103). -/
structure ChatRequest where
  model : String
  messages : List ChatMessage
  maxTokens : Nat
  responseFormatJson : Bool
deriving DecidableEq, Repr

/-- The environment of external capabilities the endpoint runs against. -/
structure AppEnv where
  /-- `os.getenv("AWS_BUCKET_NAME")`: `none` when unset. -/
  bucketName : Option String
  /-- Page limit of a single `list_objects_v2` call (AWS `MaxKeys`,
  1000 by default). -/
  pageSize : Nat
  /-- All object keys present in the bucket, in listing order. -/
  objects : List String
  /-- When `some e`, the `list_objects_v2` call raises `e`. -/
  listError : Option S3Error
  /-- `s3_client.get_object(...)['Body'].read()` for a key: the blob's
  bytes, or the exception raised. -/
  getObject : String → Except S3Error (List Nat)
  /-- The PIL pipeline `Image.open(bytes).convert("RGB")` + JPEG re-encode +
  base64: the base64 text of the re-encoded image, or the exception. -/
  openConvertSave : List Nat → Except PilError String
  /-- `client.chat.completions.create` followed by
  `response.choices[0].message.content`: `none` when the call raises or the
  content is `None`. -/
  chatCreate : ChatRequest → Option String
  /-- `json.loads`: `none` when it raises `json.JSONDecodeError`, otherwise
  the parsed document (opaque). -/
  jsonLoads : String → Option String

/-- Python truthiness test `if not x` for an optional string value:
true when the value is absent or the empty string. -/
def pyFalsy : Option String → Bool
  | none => true
  | some s => s == ""

/-- Python `f"{x}"` rendering of an optional value (`None` renders as
the text `None`). -/
def pyStr : Option String → String
  | none => "None"
  | some s => s

/-- The four request fields the handler extracts (top level or inside a
`"request"`/`"body"` wrapper object). -/
structure WrapFields where
  memberId : Option String
  retripId : Option String
  mainLocationLat : Option String
  mainLocationLng : Option String
deriving DecidableEq, Repr

/-- The inbound JSON body as the handler reads it: the four fields at top
level, and the optional `"request"` and `"body"` wrapper objects.
`request = some w` models `'request' in data` with wrapper content `w`. -/
structure ReqData where
  memberId : Option String
  retripId : Option String
  mainLocationLat : Option String
  mainLocationLng : Option String
  request : Option WrapFields
  body : Option WrapFields
deriving DecidableEq, Repr

/-- Reading all four fields out of a wrapper object via `.get` (absent
wrapper contributes nothing; guarded by `isSome` where used). -/
def wrapOf : Option WrapFields → WrapFields
  | some w => w
  | none => ⟨none, none, none, none⟩

/-- Field extraction of src/app.py lines 160-175: read the four fields at
top level; `if not member_id and 'request' in data:` re-read all four from
`data['request']`; `elif not member_id and 'body' in data:` re-read all
four from `data['body']`. -/
def extractFields (d : ReqData) : WrapFields :=
  if pyFalsy d.memberId && d.request.isSome then
    wrapOf d.request
  else if pyFalsy d.memberId && d.body.isSome then
    wrapOf d.body
  else
    ⟨d.memberId, d.retripId, d.mainLocationLat, d.mainLocationLng⟩

/-- The extraction the specification describes (claim side, for comparison
with `extractFields`): each field independently taken from the first place
it is present — top level, then `request.*`, then `body.*`. -/
def extractFieldsSpec (d : ReqData) : WrapFields :=
  let r := wrapOf d.request
  let b := wrapOf d.body
  ⟨(d.memberId.orElse fun _ => r.memberId).orElse fun _ => b.memberId,
   (d.retripId.orElse fun _ => r.retripId).orElse fun _ => b.retripId,
   (d.mainLocationLat.orElse fun _ => r.mainLocationLat).orElse fun _ => b.mainLocationLat,
   (d.mainLocationLng.orElse fun _ => r.mainLocationLng).orElse fun _ => b.mainLocationLng⟩

/-- Last index of a character in a character list (Python `str.rfind`),
`none` when the character does not occur. -/
def lastIndexOf : List Char → Char → Option Nat
  | [], _ => none
  | x :: xs, c =>
    match lastIndexOf xs c with
    | some i => some (i + 1)
    | none => if x = c then some 0 else none

/-- The extension part of `os.path.splitext` (posixpath): the substring
from the last dot onward, provided that dot lies strictly after the last
path separator and the base name has a non-dot character before it;
otherwise the empty string. -/
def extOf (s : String) : String :=
  let cs := s.data
  match lastIndexOf cs '.' with
  | none => ""
  | some d =>
    let nameStart : Nat :=
      match lastIndexOf cs '/' with
      | none => 0
      | some i => i + 1
    if nameStart ≤ d then
      if ((cs.drop nameStart).take (d - nameStart)).any (fun ch => ch != '.') then
        String.mk (cs.drop d)
      else ""
    else ""

/-- ASCII lower-casing of a string (Python `str.lower` on the ASCII range,
which is all the allow-list comparison needs). -/
def lowerAscii (s : String) : String :=
  String.mk (s.data.map Char.toLower)

/-- `key.endswith('/')`: the last character is the separator. -/
def endsWithSlash (k : String) : Bool :=
  k.data.getLast? == some '/'

/-- Character-list prefix test (used for the S3 `Prefix` match). -/
def listStarts : List Char → List Char → Bool
  | [], _ => true
  | _ :: _, [] => false
  | p :: ps, c :: cs => p == c && listStarts ps cs

/-- `k` starts with `pat` (S3 returns exactly the keys starting with the
requested `Prefix`). -/
def strStartsWith (k pat : String) : Bool :=
  listStarts pat.data k.data

/-- The extension allow-list of src/app.py line 205. -/
def allowedExtensions : List String :=
  [".png", ".jpg", ".jpeg", ".gif", ".bmp", ".heic"]

/-- `download_image_from_s3` (src/app.py lines 123-142): returns the blob
bytes; every exception (`NoCredentialsError`, `ClientError` of any code,
any other exception) is caught inside the helper and becomes `None`. -/
def download_image_from_s3 (env : AppEnv) (key : String) : Option (List Nat) :=
  match env.getObject key with
  | Except.ok bytes => some bytes
  | Except.error _ => none

/-- Outcome of the per-key loop body for one key: skipped silently
(directory marker), one failure entry appended, or one payload appended. -/
inductive StepResult where
  | skip : StepResult
  | failedR (r : FailureRecord) : StepResult
  | okP (payload : String) : StepResult
deriving DecidableEq, Repr

/-- The loop body of src/app.py lines 208-239 for a single key, together
with whether a blob download was attempted for that key (the boolean). -/
def normalizeStep (env : AppEnv) (k : String) : StepResult × Bool :=
  if endsWithSlash k = true then
    (StepResult.skip, false)
  else
    let fileExt := lowerAscii (extOf k)
    if fileExt ∉ allowedExtensions then
      (StepResult.failedR { id := k, reason := "지원하지 않는 파일 형식: " ++ fileExt }, false)
    else
      match download_image_from_s3 env k with
      | none =>
        (StepResult.failedR { id := k, reason := "S3 다운로드 실패" }, true)
      | some bytes =>
        match env.openConvertSave bytes with
        | Except.error (PilError.unidentified e) =>
          (StepResult.failedR { id := k, reason := "이미지 식별 실패: " ++ e }, true)
        | Except.error (PilError.otherExc e) =>
          (StepResult.failedR { id := k, reason := "인코딩 중 예상치 못한 오류: " ++ e }, true)
        | Except.ok b64 =>
          (StepResult.okP ("data:image/jpeg;base64," ++ b64), true)

/-- Accumulated state of the per-key loop: `processed_image_urls`,
`failed_images_info`, and the keys for which a download was attempted. -/
structure NormResult where
  processed : List String
  failed : List FailureRecord
  fetched : List String
deriving DecidableEq, Repr

/-- The `for s3_object in s3_objects:` loop of src/app.py lines 208-239,
appending to the accumulators exactly as the Python code does. -/
def normalizeLoop (env : AppEnv) : List String → NormResult → NormResult
  | [], acc => acc
  | k :: ks, acc =>
    match normalizeStep env k with
    | (StepResult.skip, fb) =>
      normalizeLoop env ks
        { acc with fetched := if fb then acc.fetched ++ [k] else acc.fetched }
    | (StepResult.failedR r, fb) =>
      normalizeLoop env ks
        { acc with failed := acc.failed ++ [r],
                   fetched := if fb then acc.fetched ++ [k] else acc.fetched }
    | (StepResult.okP p, fb) =>
      normalizeLoop env ks
        { acc with processed := acc.processed ++ [p],
                   fetched := if fb then acc.fetched ++ [k] else acc.fetched }

/-- The whole normalization stage, started with empty accumulators. -/
def runNormalizer (env : AppEnv) (keys : List String) : NormResult :=
  normalizeLoop env keys ⟨[], [], []⟩

/-- Per-key view: the payload the key contributes, if any. -/
def payloadOf (env : AppEnv) (k : String) : Option String :=
  match (normalizeStep env k).1 with
  | StepResult.okP p => some p
  | _ => none

/-- Per-key view: the failure record the key contributes, if any. -/
def failureOf (env : AppEnv) (k : String) : Option FailureRecord :=
  match (normalizeStep env k).1 with
  | StepResult.failedR r => some r
  | _ => none

/-- Per-key view: whether a blob download is attempted for the key. -/
def fetchesKey (env : AppEnv) (k : String) : Bool :=
  (normalizeStep env k).2

/-- The prompt `travel_analysis_prompt` of src/app.py lines 248-291: the
f-string with `main_location_lat` / `main_location_lng` substituted by
their Python rendering (literal braces of the f-string written as
escapes). -/
def travelAnalysisPrompt (lat lng : Option String) : String :=
  "\n        당신은 여행 사진 분석 전문가입니다. 당신에게 제공된 **주어진 위도(" ++
  pyStr lat ++
  ")와 경도(" ++
  pyStr lng ++
  ") 값은 이번 여행의 핵심 위치 정보입니다.** \n        이 정보를 기반으로 모든 여행 이미지들을 종합적으로 분석하여 다음 세 가지 정보를 JSON 형식으로 제공해 주세요.\n      \n        1.  **overall_mood**: 이번 여행 사진의 전반적인 분위기를 한 문장으로 요약해 주세요.\n        2.  **top5_subjects**: 이번 여행 사진에서 가장 자주 등장하는 피사체 (인물, 동물, 특정 건물, 자연물 등) 상위 5개를 빈도 순으로 나열하고 각 항목의 대략적인 개수를 포함해 주세요.\n        3.  **photo_category_ratio**: 인물 사진, 풍경 사진, 음식 사진, 기타 사진의 대략적인 비율을 퍼센테이지로 제공해 주세요. (예: \"인물: 30%, 풍경: 50%, 음식: 10%, 기타: 10%\") 만약 특정 카테고리의 사진이 없거나 적다면 0%로 표시할 수 있습니다.\n        4.  **top_visit_place**: \"제공된 위도 " ++
  pyStr lat ++
  "와 경도 " ++
  pyStr lng ++
  "가 가리키는 **정확한 장소**는 어디인가요? 이 위치가 속한 **가장 대표적인 지역명 또는 랜드마크 이름**을 한국어로 10단어 이내로 답변해주세요. 예를 들어, N서울타워 근처라면 '남산', 특정 가게 근처라도 그 가게가 속한 주요 상업 지구명이나 관광지명을 알려주세요. 도로명 주소는 제외합니다. **이 값은 제공된 위도/경도에 가장 부합하는 실제 지명이어야 합니다.**\"\n                  (예: \x7b\"latitude\": " ++
  pyStr lat ++
  ", \"longitude\": " ++
  pyStr lng ++
  ", \"place_name\": \"파주 임진각\"\x7d)\n                  \x7b\n                    \"latitude\": " ++
  pyStr lat ++
  ",\n                    \"longitude\": " ++
  pyStr lng ++
  ",\n                    \"place_name\": \"해당 장소의 대표적인 지역명 또는 랜드마크 이름\"\n                  \x7d\n        5.  **top_recommend_place**: **제공된 위도(" ++
  pyStr lat ++
  ")와 경도(" ++
  pyStr lng ++
  ")가 가리키는 지역을 기반으로**, 해당 지역 또는 근처에 있는 **방문할 만한 장소를 5개 추천**해 주세요. \n                  이는 단순히 이미지에서 유추하는 것이 아니라, 해당 좌표가 속한 실제 지역의 유명 관광지, 맛집, 랜드마크 등을 고려해야 합니다.\n                  (예: [\"파주 헤이리 마을\", \"임진각\", \"프로방스 마을\", \"파주 프리미엄 아울렛\", \"DMZ\"])\n        6.  **mbti**: 이번 여행의 전반적인 분위기와 데이터를 토대로 사용자의 MBTI 유형을 추정해 주세요. (예: \"ISFJ\", \"ENTP\" 등)\n        7.  **person_mood**: 인물 사진이 있다면 인물의 감정 상태를 분석해 주세요. (예: \"행복\", \"슬픔\", \"놀람\" 등)\n      \n        다음 형식의 JSON으로 응답해 주세요:\n        \x7b\n          \"travel_analysis\": \x7b\n            \"overall_mood\": \"이번 여행 사진의 전반적인 분위기는...\",\n            \"top5_subjects\": [\n              \x7b\"subject\": \"피사체1\", \"count\": 10\x7d,\n              \x7b\"subject\": \"피사체2\", \"count\": 8\x7d,\n              \x7b\"subject\": \"피사체3\", \"count\": 5\x7d,\n              \x7b\"subject\": \"피사체4\", \"count\": 3\x7d,\n              \x7b\"subject\": \"피사체5\", \"count\": 2\x7d\n            ],\n            \"photo_category_ratio\": \x7b\n              \"people\": \"30%\",\n              \"landscape\": \"50%\",\n              \"food\": \"10%\",\n              \"other\": \"10%\"\n            \x7d,\n            \"top_visit_place\": \x7b\"latitude\": " ++
  pyStr lat ++
  ", \"longitude\": " ++
  pyStr lng ++
  ", \"place_name\": \"해당 장소의 대표적인 지역명 또는 랜드마크 이름\"\x7d,\n            \"top_recommend_place\": [ \"추천 장소1\", \"추천 장소2\", \"추천 장소3\", \"추천 장소4\", \"추천 장소5\" ],\n            \"mbti\": \"ISFJ\",\n            \"person_mood\": \"행복\"\n          \x7d\n        \x7d\n        "

/-- Construction of the one chat request in `analyze_images_with_gpt4o`
(src/app.py lines 88-103): a single user message whose content is the text
block followed by one image block per data URL, model "gpt-4o",
`max_tokens=2000`, `response_format={"type": "json_object"}`. -/
def buildChatRequest (base64DataUrls : List String) (promptText : String) : ChatRequest :=
  { model := "gpt-4o",
    messages := [{ role := "user",
                   content := ContentBlock.text promptText
                     :: base64DataUrls.map ContentBlock.imageUrl }],
    maxTokens := 2000,
    responseFormatJson := true }

/-- `analyze_images_with_gpt4o` (src/app.py lines 83-109): builds the one
request, issues it, and returns the response content (`None` on any
exception); the request issued is returned alongside for bookkeeping. -/
def analyze_images_with_gpt4o (env : AppEnv) (base64DataUrls : List String)
    (promptText : String) : Option String × ChatRequest :=
  let req := buildChatRequest base64DataUrls promptText
  (env.chatCreate req, req)

/-- The key list a single `list_objects_v2(Bucket=..., Prefix=...)` call
yields: the keys under the prefix, truncated to one page (the code never
follows `NextContinuationToken`). -/
def listObjectsFirstPage (env : AppEnv) (pfxArg : String) : List String :=
  (env.objects.filter (fun k => strStartsWith k pfxArg)).take env.pageSize

/-- The complete key list under the prefix (what draining every page of the
paginated listing would return) — spec side, for comparison with
`listObjectsFirstPage`. -/
def allKeysUnder (env : AppEnv) (pfxArg : String) : List String :=
  env.objects.filter (fun k => strStartsWith k pfxArg)

/-- The JSON body of a response of the endpoint; `none` marks a key that is
absent from that branch's `jsonify({...})` payload. -/
structure HttpResponse where
  status : Nat
  error : Option String := none
  message : Option String := none
  rawOpenaiResponse : Option String := none
  travelImageAnalysis : Option String := none
  failedImagesInfo : Option (List FailureRecord) := none
deriving DecidableEq, Repr

/-- One handler run, with the observable interactions recorded: the number
of `list_objects_v2` calls made, the keys for which `get_object` was
attempted, and the chat requests issued to the inference client. -/
structure HandlerOutcome where
  response : HttpResponse
  listCalls : Nat
  fetched : List String
  gptRequests : List ChatRequest
deriving Repr

/-- The aggregate error bodies of the `except` arms wrapping the listing
block (src/app.py lines 318-326). -/
def aggregateS3ErrorMsg : S3Error → String
  | S3Error.noCredentials =>
    "AWS 자격 증명이 설정되지 않았습니다. 환경 변수 또는 IAM 역할을 확인해주세요."
  | S3Error.clientError code msg => "S3 클라이언트 오류: " ++ code ++ " - " ++ msg
  | S3Error.otherExc msg => "서버 내부 오류 발생: " ++ msg

/-- `s3_folder_prefix = f"{member_id}/{retrip_id}/"` for the extracted
fields (src/app.py line 184; only reached when both are non-falsy). -/
def requestScope (d : ReqData) : String :=
  ((extractFields d).memberId.getD "") ++ "/" ++ ((extractFields d).retripId.getD "") ++ "/"

/-- The empty-listing body of src/app.py line 200. -/
def emptyFolderMsg (pfxArg : String) : String :=
  "'" ++ pfxArg ++ "' 폴더에 이미지가 없습니다."

/-- The all-failed body of src/app.py lines 242-245. -/
def allFailedMsg (pfxArg : String) : String :=
  "'" ++ pfxArg ++ "' 폴더에서 분석할 이미지를 찾을 수 없거나 모두 처리 실패했습니다."

/-- The `analyze_s3_images` endpoint (src/app.py lines 147-332), evaluated
against the environment.  `data = none` models a parsed-but-falsy JSON body
(`if not data`).  Every branch returns the exact `jsonify` payload and HTTP
status of the corresponding `return` statement. -/
def runHandler (env : AppEnv) (data : Option ReqData) : HandlerOutcome :=
  match data with
  | none =>
    { response := { status := 400,
                    error := some "요청 본문이 JSON 형식이 아니거나 비어 있습니다." },
      listCalls := 0, fetched := [], gptRequests := [] }
  | some d =>
    let f := extractFields d
    if pyFalsy f.memberId || pyFalsy f.retripId then
      { response := { status := 400, error := some "memberId와 retripId가 필요합니다." },
        listCalls := 0, fetched := [], gptRequests := [] }
    else
      let pfxArg := requestScope d
      if pyFalsy env.bucketName then
        { response := { status := 500,
                        error := some "AWS_BUCKET_NAME 환경 변수가 설정되지 않았습니다." },
          listCalls := 0, fetched := [], gptRequests := [] }
      else
        match env.listError with
        | some e =>
          { response := { status := 500, error := some (aggregateS3ErrorMsg e) },
            listCalls := 1, fetched := [], gptRequests := [] }
        | none =>
          let s3Objects := listObjectsFirstPage env pfxArg
          if s3Objects.isEmpty then
            { response := { status := 200, message := some (emptyFolderMsg pfxArg) },
              listCalls := 1, fetched := [], gptRequests := [] }
          else
            let r := runNormalizer env s3Objects
            if r.processed.isEmpty then
              { response := { status := 200,
                              message := some (allFailedMsg pfxArg),
                              failedImagesInfo := some r.failed },
                listCalls := 1, fetched := r.fetched, gptRequests := [] }
            else
              let promptText := travelAnalysisPrompt f.mainLocationLat f.mainLocationLng
              let callResult := analyze_images_with_gpt4o env r.processed promptText
              match callResult.1 with
              | none =>
                { response := { status := 500,
                                error := some "통합 이미지 분석 실패 (API 호출 오류 또는 응답 없음)",
                                failedImagesInfo := some r.failed },
                  listCalls := 1, fetched := r.fetched, gptRequests := [callResult.2] }
              | some txt =>
                if txt == "" then
                  { response := { status := 500,
                                  error := some "통합 이미지 분석 실패 (API 호출 오류 또는 응답 없음)",
                                  failedImagesInfo := some r.failed },
                    listCalls := 1, fetched := r.fetched, gptRequests := [callResult.2] }
                else
                  match env.jsonLoads txt with
                  | none =>
                    { response := { status := 500,
                                    error := some "GPT-4o 응답 파싱 실패",
                                    rawOpenaiResponse := some txt,
                                    failedImagesInfo := some r.failed },
                      listCalls := 1, fetched := r.fetched, gptRequests := [callResult.2] }
                  | some parsedDoc =>
                    { response := { status := 200,
                                    travelImageAnalysis := some parsedDoc,
                                    failedImagesInfo := some r.failed },
                      listCalls := 1, fetched := r.fetched, gptRequests := [callResult.2] }

/-- C2's property: the normalization stage accounts for every non-directory
key exactly once, keeps listing order in both output lists, and directory
markers contribute to neither list. -/
def accountingClaim (env : AppEnv) (keys : List String) : Prop :=
  (runNormalizer env keys).processed.length + (runNormalizer env keys).failed.length
      = (keys.filter (fun k => !endsWithSlash k)).length
  ∧ (runNormalizer env keys).processed = keys.filterMap (payloadOf env)
  ∧ (runNormalizer env keys).failed = keys.filterMap (failureOf env)
  ∧ (∀ rec ∈ (runNormalizer env keys).failed, endsWithSlash rec.id = false)
  ∧ (∀ k, endsWithSlash k = true → payloadOf env k = none ∧ failureOf env k = none)

/-- C7's property: an unsupported-extension key yields exactly one failure
record (bearing the key and the unsupported-type reason), never a payload,
and no blob fetch is attempted for it. -/
def unsupportedExtClaim (env : AppEnv) (keys : List String) (k : String) : Prop :=
  normalizeStep env k
      = (StepResult.failedR { id := k, reason := "지원하지 않는 파일 형식: " ++ lowerAscii (extOf k) },
         false)
  ∧ ((runNormalizer env keys).failed.countP (fun rec => rec.id == k)) = 1
  ∧ payloadOf env k = none
  ∧ k ∉ (runNormalizer env keys).fetched

/-- C5's property: missing memberId/retripId is rejected with 400 before
any storage interaction, and the bucket-name check comes after that
validation, its absence giving a distinct 500 (still before any storage
interaction). -/
def validationClaim (env : AppEnv) (d : ReqData) : Prop :=
  ((pyFalsy (extractFields d).memberId = true ∨ pyFalsy (extractFields d).retripId = true) →
      (runHandler env (some d)).response.status = 400
      ∧ (runHandler env (some d)).response.error = some "memberId와 retripId가 필요합니다."
      ∧ (runHandler env (some d)).listCalls = 0
      ∧ (runHandler env (some d)).fetched = [])
  ∧ (pyFalsy (extractFields d).memberId = false →
      pyFalsy (extractFields d).retripId = false →
      pyFalsy env.bucketName = true →
      (runHandler env (some d)).response.status = 500
      ∧ (runHandler env (some d)).response.error
          = some "AWS_BUCKET_NAME 환경 변수가 설정되지 않았습니다."
      ∧ (runHandler env (some d)).listCalls = 0
      ∧ (runHandler env (some d)).fetched = [])

/-- C4's property: non-empty listing with zero successfully normalized
images returns HTTP 200 with the explanatory message and the full failure
list, and no inference request is issued. -/
def allFailedClaim (env : AppEnv) (d : ReqData) : Prop :=
  (runHandler env (some d)).response.status = 200
  ∧ (runHandler env (some d)).response.message = some (allFailedMsg (requestScope d))
  ∧ (runHandler env (some d)).response.failedImagesInfo
      = some (runNormalizer env (listObjectsFirstPage env (requestScope d))).failed
  ∧ (runHandler env (some d)).gptRequests = []

/-- C8's property: an empty listing returns HTTP 200, a message mentioning
the prefix, and neither a travel_image_analysis nor an error field. -/
def emptyListingClaim (env : AppEnv) (d : ReqData) : Prop :=
  (runHandler env (some d)).response.status = 200
  ∧ (runHandler env (some d)).response.message = some (emptyFolderMsg (requestScope d))
  ∧ (∃ pre post, emptyFolderMsg (requestScope d) = pre ++ requestScope d ++ post)
  ∧ (runHandler env (some d)).response.travelImageAnalysis = none
  ∧ (runHandler env (some d)).response.error = none

/-- C6's property: on the path that reaches the analyzer, a non-parseable
response text gives a 500 carrying the raw text and no parsed analysis,
while a failed call (no text) gives a different 500 without raw text; both
carry the accumulated failure list. -/
def inferenceErrorClaim (env : AppEnv) (d : ReqData) : Prop :=
  (∀ txt,
      env.chatCreate
          (buildChatRequest
            (runNormalizer env (listObjectsFirstPage env (requestScope d))).processed
            (travelAnalysisPrompt (extractFields d).mainLocationLat
              (extractFields d).mainLocationLng)) = some txt →
      (txt == "") = false → env.jsonLoads txt = none →
      (runHandler env (some d)).response
        = { status := 500, error := some "GPT-4o 응답 파싱 실패",
            rawOpenaiResponse := some txt,
            failedImagesInfo :=
              some (runNormalizer env (listObjectsFirstPage env (requestScope d))).failed })
  ∧ (env.chatCreate
        (buildChatRequest
          (runNormalizer env (listObjectsFirstPage env (requestScope d))).processed
          (travelAnalysisPrompt (extractFields d).mainLocationLat
            (extractFields d).mainLocationLng)) = none →
      (runHandler env (some d)).response
        = { status := 500,
            error := some "통합 이미지 분석 실패 (API 호출 오류 또는 응답 없음)",
            failedImagesInfo :=
              some (runNormalizer env (listObjectsFirstPage env (requestScope d))).failed })
  ∧ ("GPT-4o 응답 파싱 실패" : String) ≠ "통합 이미지 분석 실패 (API 호출 오류 또는 응답 없음)"

/-- C9's property: at most one inference request per handler run, and any
request issued is the single user turn made of the instruction text block
followed by the normalized payloads in listing order, each an inline base64
JPEG data URL, with JSON output format and the 2000-token output bound. -/
def analyzerRequestClaim (env : AppEnv) (d : ReqData) : Prop :=
  (runHandler env (some d)).gptRequests.length ≤ 1
  ∧ (∀ req ∈ (runHandler env (some d)).gptRequests,
      req = buildChatRequest
          ((listObjectsFirstPage env (requestScope d)).filterMap (payloadOf env))
          (travelAnalysisPrompt (extractFields d).mainLocationLat
            (extractFields d).mainLocationLng)
      ∧ req.messages
          = [{ role := "user",
               content := ContentBlock.text
                   (travelAnalysisPrompt (extractFields d).mainLocationLat
                     (extractFields d).mainLocationLng)
                 :: ((listObjectsFirstPage env (requestScope d)).filterMap
                     (payloadOf env)).map ContentBlock.imageUrl }]
      ∧ req.model = "gpt-4o" ∧ req.maxTokens = 2000 ∧ req.responseFormatJson = true)
  ∧ (∀ u ∈ (listObjectsFirstPage env (requestScope d)).filterMap (payloadOf env),
      ∃ b, u = "data:image/jpeg;base64," ++ b)

/-- C10's property: per-item fetch exceptions are swallowed inside the
download helper and become one per-item failure record, the loop and the
request continue, and with a healthy listing no response carries an
aggregate storage-error body (every 500 is a configuration or inference
error). -/
def downloadIsolationClaim (env : AppEnv) (d : ReqData) : Prop :=
  (∀ k e, env.getObject k = Except.error e → download_image_from_s3 env k = none)
  ∧ (∀ k, endsWithSlash k = false → lowerAscii (extOf k) ∈ allowedExtensions →
      (∃ e, env.getObject k = Except.error e) →
      failureOf env k = some { id := k, reason := "S3 다운로드 실패" }
      ∧ payloadOf env k = none)
  ∧ (∀ keys k acc, endsWithSlash k = false → lowerAscii (extOf k) ∈ allowedExtensions →
      (∃ e, env.getObject k = Except.error e) →
      normalizeLoop env (k :: keys) acc
        = normalizeLoop env keys
            { acc with failed := acc.failed ++ [{ id := k, reason := "S3 다운로드 실패" }],
                       fetched := acc.fetched ++ [k] })
  ∧ (env.listError = none →
      (runHandler env (some d)).response.status = 500 →
      (runHandler env (some d)).response.error
          = some "AWS_BUCKET_NAME 환경 변수가 설정되지 않았습니다."
      ∨ (runHandler env (some d)).response.error
          = some "통합 이미지 분석 실패 (API 호출 오류 또는 응답 없음)"
      ∨ (runHandler env (some d)).response.error = some "GPT-4o 응답 파싱 실패")

/-- A request body with both ids at top level, used by witnesses. -/
def dW : ReqData :=
  { memberId := some "u1", retripId := some "t1",
    mainLocationLat := none, mainLocationLng := none,
    request := none, body := none }

/-- A request body missing retripId, used by the validation witness. -/
def dNoRetrip : ReqData :=
  { memberId := some "u1", retripId := none,
    mainLocationLat := none, mainLocationLng := none,
    request := none, body := none }

/-- A request body whose fields sit only under the body wrapper. -/
def dBodyOnly : ReqData :=
  { memberId := none, retripId := none,
    mainLocationLat := none, mainLocationLng := none,
    request := none,
    body := some { memberId := some "u1", retripId := some "t1",
                   mainLocationLat := none, mainLocationLng := none } }

/-- The same body with an additional (empty) request wrapper present. -/
def dBodyPlusRequest : ReqData :=
  { dBodyOnly with
    request := some { memberId := none, retripId := none,
                      mainLocationLat := none, mainLocationLng := none } }

/-- Witness environment: one directory marker, one good HEIC image, one
unsupported .txt key under scope u1/t1/; inference returns non-JSON text. -/
def envW : AppEnv :=
  { bucketName := some "retrip-bucket",
    pageSize := 1000,
    objects := ["u1/t1/", "u1/t1/a.heic", "u1/t1/b.txt"],
    listError := none,
    getObject := fun k =>
      if k == "u1/t1/a.heic" then Except.ok [255, 216]
      else Except.error (S3Error.clientError "NoSuchKey" "The specified key does not exist."),
    openConvertSave := fun _ => Except.ok "QUJD",
    chatCreate := fun _ => some "notjson",
    jsonLoads := fun _ => none }

/-- Witness environment in which every blob fetch raises. -/
def envFail : AppEnv :=
  { envW with getObject := fun _ => Except.error S3Error.noCredentials }

/-- Witness environment with an empty bucket. -/
def envEmpty : AppEnv :=
  { envW with objects := [] }

/-- C1's counterexample environment: storage page limit 1 (standing for the
AWS MaxKeys limit) and two keys under the scope, so the single
list_objects_v2 call cannot see the second key. -/
def envC1 : AppEnv :=
  { bucketName := some "retrip-bucket",
    pageSize := 1,
    objects := ["u1/t1/a.png", "u1/t1/b.png"],
    listError := none,
    getObject := fun _ => Except.error S3Error.noCredentials,
    openConvertSave := fun _ => Except.ok "QUJD",
    chatCreate := fun _ => none,
    jsonLoads := fun _ => none }

theorem stepDir (env : AppEnv) (k : String) (h : endsWithSlash k = true) :
    normalizeStep env k = (StepResult.skip, false) := by
  simp [normalizeStep, h]

/-- Every key takes exactly one of the three loop-body outcomes: silently
skipped when it is a directory marker, otherwise exactly one failure record
bearing the key itself as id, or exactly one payload which is an inline
base64 JPEG data URL. -/
theorem step_shape (env : AppEnv) (k : String) :
    (endsWithSlash k = true ∧ normalizeStep env k = (StepResult.skip, false))
  ∨ (endsWithSlash k = false ∧ ∃ r, (normalizeStep env k).1 = StepResult.failedR r ∧ r.id = k)
  ∨ (endsWithSlash k = false ∧ ∃ p, (normalizeStep env k).1 = StepResult.okP p
      ∧ ∃ b, p = "data:image/jpeg;base64," ++ b) := by
  by_cases h1 : endsWithSlash k = true
  · exact Or.inl ⟨h1, stepDir env k h1⟩
  · rw [Bool.not_eq_true] at h1
    right
    by_cases h2 : lowerAscii (extOf k) ∈ allowedExtensions
    · cases h3 : download_image_from_s3 env k with
      | none =>
        exact Or.inl ⟨h1, ⟨k, "S3 다운로드 실패"⟩,
          by simp [normalizeStep, h1, h2, h3], rfl⟩
      | some bytes =>
        cases h4 : env.openConvertSave bytes with
        | error e =>
          cases e with
          | unidentified m =>
            exact Or.inl ⟨h1, ⟨k, "이미지 식별 실패: " ++ m⟩,
              by simp [normalizeStep, h1, h2, h3, h4], rfl⟩
          | otherExc m =>
            exact Or.inl ⟨h1, ⟨k, "인코딩 중 예상치 못한 오류: " ++ m⟩,
              by simp [normalizeStep, h1, h2, h3, h4], rfl⟩
        | ok b64 =>
          exact Or.inr ⟨h1, "data:image/jpeg;base64," ++ b64,
            by simp [normalizeStep, h1, h2, h3, h4], b64, rfl⟩
    · exact Or.inl ⟨h1, ⟨k, "지원하지 않는 파일 형식: " ++ lowerAscii (extOf k)⟩,
        by simp [normalizeStep, h1, h2], rfl⟩

theorem payloadOf_dir (env : AppEnv) (k : String) (h : endsWithSlash k = true) :
    payloadOf env k = none := by
  simp [payloadOf, stepDir env k h]

theorem failureOf_dir (env : AppEnv) (k : String) (h : endsWithSlash k = true) :
    failureOf env k = none := by
  simp [failureOf, stepDir env k h]

/-- A failure record always carries its key as id, and is never produced
for a directory-marker key. -/
theorem failureOf_props (env : AppEnv) (k : String) (r : FailureRecord)
    (h : failureOf env k = some r) : r.id = k ∧ endsWithSlash k = false := by
  rcases step_shape env k with ⟨h1, hs⟩ | ⟨h1, r', hs, hid⟩ | ⟨h1, p, hs, _⟩
  · rw [failureOf_dir env k h1] at h; cases h
  · refine ⟨?_, h1⟩
    simp [failureOf, hs] at h
    rw [← h]; exact hid
  · simp [failureOf, hs] at h

/-- A payload is only produced for a non-directory key and is an inline
base64 JPEG data URL. -/
theorem payloadOf_props (env : AppEnv) (k : String) (p : String)
    (h : payloadOf env k = some p) :
    endsWithSlash k = false ∧ ∃ b, p = "data:image/jpeg;base64," ++ b := by
  rcases step_shape env k with ⟨h1, hs⟩ | ⟨h1, r', hs, hid⟩ | ⟨h1, p', hs, hurl⟩
  · rw [payloadOf_dir env k h1] at h; cases h
  · simp [payloadOf, hs] at h
  · refine ⟨h1, ?_⟩
    simp [payloadOf, hs] at h
    rw [← h]; exact hurl

/-- The loop is a pure accumulation: processed payloads, failure records
and fetched keys are the per-key contributions in listing order, appended
to the incoming accumulator. -/
theorem normalizeLoop_eq (env : AppEnv) (keys : List String) : ∀ acc : NormResult,
    normalizeLoop env keys acc =
      { processed := acc.processed ++ keys.filterMap (payloadOf env),
        failed := acc.failed ++ keys.filterMap (failureOf env),
        fetched := acc.fetched ++ keys.filter (fun k => fetchesKey env k) } := by
  induction keys with
  | nil => intro acc; simp [normalizeLoop]
  | cons k ks ih =>
    intro acc
    rcases hs : normalizeStep env k with ⟨sr, fb⟩
    cases sr <;> cases fb <;>
      simp [normalizeLoop, hs, ih, payloadOf, failureOf, fetchesKey]

/-- The whole normalization stage in closed form. -/
theorem runNormalizer_eq (env : AppEnv) (keys : List String) :
    runNormalizer env keys =
      { processed := keys.filterMap (payloadOf env),
        failed := keys.filterMap (failureOf env),
        fetched := keys.filter (fun k => fetchesKey env k) } := by
  simpa [runNormalizer] using normalizeLoop_eq env keys ⟨[], [], []⟩

/-- Per-key accounting: payload count plus failure count equals the count
of non-directory keys. -/
theorem accounted_len (env : AppEnv) : ∀ keys : List String,
    (keys.filterMap (payloadOf env)).length + (keys.filterMap (failureOf env)).length
      = (keys.filter (fun k => !endsWithSlash k)).length
  | [] => by simp
  | k :: ks => by
    have ih := accounted_len env ks
    rcases step_shape env k with ⟨h1, hs⟩ | ⟨h1, r, hs, _⟩ | ⟨h1, p, hs, _⟩
    · have hp := payloadOf_dir env k h1
      have hf := failureOf_dir env k h1
      simp [hp, hf, h1, ih]
    · have hp : payloadOf env k = none := by simp [payloadOf, hs]
      have hf : failureOf env k = some r := by simp [failureOf, hs]
      simp [hp, hf, h1]
      omega
    · have hp : payloadOf env k = some p := by simp [payloadOf, hs]
      have hf : failureOf env k = none := by simp [failureOf, hs]
      simp [hp, hf, h1]
      omega

theorem stepBadExt (env : AppEnv) (k : String) (h1 : endsWithSlash k = false)
    (h2 : lowerAscii (extOf k) ∉ allowedExtensions) :
    normalizeStep env k
      = (StepResult.failedR { id := k, reason := "지원하지 않는 파일 형식: " ++ lowerAscii (extOf k) },
         false) := by
  simp [normalizeStep, h1, h2]

theorem stepDownloadFail (env : AppEnv) (k : String) (h1 : endsWithSlash k = false)
    (h2 : lowerAscii (extOf k) ∈ allowedExtensions) (e : S3Error)
    (he : env.getObject k = Except.error e) :
    normalizeStep env k = (StepResult.failedR { id := k, reason := "S3 다운로드 실패" }, true) := by
  have hdl : download_image_from_s3 env k = none := by
    simp [download_image_from_s3, he]
  simp [normalizeStep, h1, h2, hdl]

/-- How many failure records of the run bear a given key as id: the number
of occurrences of the key, when the key's own step fails, and zero
otherwise. -/
theorem failed_countP (env : AppEnv) (k : String) : ∀ keys : List String,
    ((keys.filterMap (failureOf env)).countP (fun rec => rec.id == k))
      = (keys.countP (fun j => j == k)) * (if (failureOf env k).isSome then 1 else 0)
  | [] => by simp
  | j :: ks => by
    have ih := failed_countP env k ks
    by_cases hj : j = k
    · subst hj
      cases hf : failureOf env j with
      | none =>
        simp [hf] at ih ⊢
        simpa [List.countP_cons, hf] using ih
      | some r =>
        have hid : r.id = j := (failureOf_props env j r hf).1
        simp [List.countP_cons, hf, hid, ih]
    · cases hf : failureOf env j with
      | none =>
        simpa [List.countP_cons, hf, hj] using ih
      | some r =>
        have hid : r.id = j := (failureOf_props env j r hf).1
        have hne : (r.id == k) = false := by simp [hid, hj]
        simpa [List.countP_cons, hf, hne, hj] using ih

/-- Across all branches, the handler issues either no inference request or
exactly the one built from the normalized payloads (in listing order) and
the substituted instruction text. -/
theorem gptRequests_cases (env : AppEnv) (d : ReqData) :
    (runHandler env (some d)).gptRequests = []
    ∨ (runHandler env (some d)).gptRequests
        = [buildChatRequest
            ((listObjectsFirstPage env (requestScope d)).filterMap (payloadOf env))
            (travelAnalysisPrompt (extractFields d).mainLocationLat
              (extractFields d).mainLocationLng)] := by
  by_cases hm : pyFalsy (extractFields d).memberId = true
  · left; simp [runHandler, hm]
  · rw [Bool.not_eq_true] at hm
    by_cases hr : pyFalsy (extractFields d).retripId = true
    · left; simp [runHandler, hm, hr]
    · rw [Bool.not_eq_true] at hr
      by_cases hb : pyFalsy env.bucketName = true
      · left; simp [runHandler, hm, hr, hb]
      · rw [Bool.not_eq_true] at hb
        cases hl : env.listError with
        | some e => left; simp [runHandler, hm, hr, hb, hl]
        | none =>
          by_cases he : (listObjectsFirstPage env (requestScope d)).isEmpty = true
          · left; simp [runHandler, hm, hr, hb, hl, he]
          · rw [Bool.not_eq_true] at he
            by_cases hp : (runNormalizer env
                (listObjectsFirstPage env (requestScope d))).processed.isEmpty = true
            · left; simp [runHandler, hm, hr, hb, hl, he, hp]
            · rw [Bool.not_eq_true] at hp
              right
              have hp2 : ((listObjectsFirstPage env (requestScope d)).filterMap
                  (payloadOf env)).isEmpty = false := by
                have h0 := hp
                rw [runNormalizer_eq] at h0
                exact h0
              cases hc : env.chatCreate (buildChatRequest
                  ((listObjectsFirstPage env (requestScope d)).filterMap (payloadOf env))
                  (travelAnalysisPrompt (extractFields d).mainLocationLat
                    (extractFields d).mainLocationLng)) with
              | none =>
                simp [runHandler, analyze_images_with_gpt4o, hm, hr, hb, hl, he, hp,
                  runNormalizer_eq, hp2, hc]
              | some txt =>
                by_cases ht : (txt == "") = true
                · simp [runHandler, analyze_images_with_gpt4o, hm, hr, hb, hl, he, hp,
                    runNormalizer_eq, hp2, hc, ht]
                · rw [Bool.not_eq_true] at ht
                  cases hj : env.jsonLoads txt with
                  | none =>
                    simp [runHandler, analyze_images_with_gpt4o, hm, hr, hb, hl, he, hp,
                      runNormalizer_eq, hp2, hc, ht, hj]
                  | some doc =>
                    simp [runHandler, analyze_images_with_gpt4o, hm, hr, hb, hl, he, hp,
                      runNormalizer_eq, hp2, hc, ht, hj]

/-- With a healthy listing (no exception raised by list_objects_v2), every
500 response of the handler is the configuration error or one of the two
inference errors — never an aggregate storage-error body. -/
theorem no_aggregate_500_without_listError (env : AppEnv) (d : ReqData)
    (hl : env.listError = none)
    (h500 : (runHandler env (some d)).response.status = 500) :
    (runHandler env (some d)).response.error
        = some "AWS_BUCKET_NAME 환경 변수가 설정되지 않았습니다."
    ∨ (runHandler env (some d)).response.error
        = some "통합 이미지 분석 실패 (API 호출 오류 또는 응답 없음)"
    ∨ (runHandler env (some d)).response.error = some "GPT-4o 응답 파싱 실패" := by
  by_cases hm : pyFalsy (extractFields d).memberId = true
  · simp [runHandler, hm] at h500
  · rw [Bool.not_eq_true] at hm
    by_cases hr : pyFalsy (extractFields d).retripId = true
    · simp [runHandler, hm, hr] at h500
    · rw [Bool.not_eq_true] at hr
      by_cases hb : pyFalsy env.bucketName = true
      · left; simp [runHandler, hm, hr, hb]
      · rw [Bool.not_eq_true] at hb
        by_cases he : (listObjectsFirstPage env (requestScope d)).isEmpty = true
        · simp [runHandler, hm, hr, hb, hl, he] at h500
        · rw [Bool.not_eq_true] at he
          by_cases hp : (runNormalizer env
              (listObjectsFirstPage env (requestScope d))).processed.isEmpty = true
          · simp [runHandler, hm, hr, hb, hl, he, hp] at h500
          · rw [Bool.not_eq_true] at hp
            cases hc : env.chatCreate (buildChatRequest
                (runNormalizer env (listObjectsFirstPage env (requestScope d))).processed
                (travelAnalysisPrompt (extractFields d).mainLocationLat
                  (extractFields d).mainLocationLng)) with
            | none =>
              right; left
              simp [runHandler, analyze_images_with_gpt4o, hm, hr, hb, hl, he, hp, hc]
            | some txt =>
              by_cases ht : (txt == "") = true
              · right; left
                simp [runHandler, analyze_images_with_gpt4o, hm, hr, hb, hl, he, hp, hc, ht]
              · rw [Bool.not_eq_true] at ht
                cases hj : env.jsonLoads txt with
                | none =>
                  right; right
                  simp [runHandler, analyze_images_with_gpt4o, hm, hr, hb, hl, he, hp,
                    hc, ht, hj]
                | some doc =>
                  simp [runHandler, analyze_images_with_gpt4o, hm, hr, hb, hl, he, hp,
                    hc, ht, hj] at h500

/-- C1: the Collector does NOT drain storage pagination.  The endpoint
issues a single `list_objects_v2` call and never follows a continuation
token, so with a storage page limit of 1 (standing for the AWS `MaxKeys`
limit) and two keys under the scope `u1/t1/`, the key list the code hands
to the normalization loop is the first page only — not the complete key
list under the prefix that the claim requires. -/
theorem collector_misses_later_pages :
    listObjectsFirstPage envC1 "u1/t1/" = ["u1/t1/a.png"]
    ∧ allKeysUnder envC1 "u1/t1/" = ["u1/t1/a.png", "u1/t1/b.png"]
    ∧ listObjectsFirstPage envC1 "u1/t1/" ≠ allKeysUnder envC1 "u1/t1/" := by
  refine ⟨rfl, rfl, ?_⟩
  decide

/-- C2: for every non-empty key list, the normalizer accounts for every
non-directory key exactly once (payload count plus failure count equals the
non-directory key count), both output lists preserve listing order (they
are the per-key contributions in order), failure records never carry a
directory-marker id, and directory-marker keys contribute to neither
list. -/
theorem normalizer_accounts_every_key (env : AppEnv) (keys : List String)
    (_hne : keys ≠ []) : accountingClaim env keys := by
  have hrun := runNormalizer_eq env keys
  refine ⟨?_, ?_, ?_, ?_, ?_⟩
  · rw [hrun]; exact accounted_len env keys
  · rw [hrun]
  · rw [hrun]
  · rw [hrun]
    intro rec hrec
    rcases List.mem_filterMap.mp hrec with ⟨k, _hk, hf⟩
    have hpr := failureOf_props env k rec hf
    rw [hpr.1]; exact hpr.2
  · intro k hk
    exact ⟨payloadOf_dir env k hk, failureOf_dir env k hk⟩

/-- C2 witness: a concrete run over one good key, one directory marker and
one unsupported key. -/
theorem normalizer_accounts_every_key_witness :
    ((["u1/t1/a.heic", "u1/t1/", "u1/t1/b.txt"] : List String) ≠ [])
    ∧ accountingClaim envW ["u1/t1/a.heic", "u1/t1/", "u1/t1/b.txt"] :=
  ⟨by decide, normalizer_accounts_every_key envW _ (by decide)⟩

/-- C3 counterexample: a body whose fields sit only under the body wrapper
is NOT resolved the same when a request key is also present — with the
empty request wrapper present the handler extracts no memberId at all,
while without it the body wrapper is used; the claimed per-field
first-present extraction would find the memberId in both cases. -/
theorem extract_wrapper_counterexample :
    (extractFields dBodyPlusRequest).memberId = none
    ∧ (extractFields dBodyOnly).memberId = some "u1"
    ∧ extractFields dBodyPlusRequest ≠ extractFields dBodyOnly
    ∧ extractFields dBodyPlusRequest ≠ extractFieldsSpec dBodyPlusRequest := by
  refine ⟨rfl, rfl, ?_, ?_⟩ <;> decide

/-- C3 amended: the handler reads all four fields from the top level; when
the top-level memberId is missing or empty it re-reads all four fields
from the request wrapper if a request key is present, otherwise from the
body wrapper if a body key is present, otherwise it keeps the top-level
values.  The body wrapper is never consulted while a request key exists,
and fields other than memberId never trigger the fallback. -/
theorem extract_wrapper_amended (d : ReqData) :
    extractFields d =
      (if pyFalsy d.memberId = true then
        match d.request with
        | some w => w
        | none =>
          match d.body with
          | some w => w
          | none => ⟨d.memberId, d.retripId, d.mainLocationLat, d.mainLocationLng⟩
      else ⟨d.memberId, d.retripId, d.mainLocationLat, d.mainLocationLng⟩) := by
  by_cases hm : pyFalsy d.memberId = true
  · cases hreq : d.request with
    | some w => simp [extractFields, hm, hreq, wrapOf]
    | none =>
      cases hbody : d.body with
      | some w => simp [extractFields, hm, hreq, hbody, wrapOf]
      | none => simp [extractFields, hm, hreq, hbody, wrapOf]
  · have hm0 : pyFalsy d.memberId = false := by
      rwa [Bool.not_eq_true] at hm
    simp [extractFields, hm0]

/-- C7: an unsupported-extension, non-directory key occurring once in the
list yields exactly one failure record for that key, never a payload, and
no blob fetch is attempted for it. -/
theorem unsupported_ext_always_fails (env : AppEnv) (keys : List String) (k : String)
    (h1 : endsWithSlash k = false)
    (h2 : lowerAscii (extOf k) ∉ allowedExtensions)
    (h3 : keys.countP (fun j => j == k) = 1) :
    unsupportedExtClaim env keys k := by
  have hstep := stepBadExt env k h1 h2
  have hrun := runNormalizer_eq env keys
  have hf : failureOf env k
      = some { id := k, reason := "지원하지 않는 파일 형식: " ++ lowerAscii (extOf k) } := by
    simp [failureOf, hstep]
  refine ⟨hstep, ?_, ?_, ?_⟩
  · rw [hrun]
    rw [failed_countP env k keys, h3, hf]
    simp
  · simp [payloadOf, hstep]
  · rw [hrun]
    intro hmem
    have hfk : fetchesKey env k = true := (List.mem_filter.mp hmem).2
    rw [fetchesKey, hstep] at hfk
    cases hfk

/-- C7 witness: the unsupported .txt key of the witness environment. -/
theorem unsupported_ext_always_fails_witness :
    (endsWithSlash "u1/t1/b.txt" = false
      ∧ lowerAscii (extOf "u1/t1/b.txt") ∉ allowedExtensions
      ∧ (["u1/t1/a.heic", "u1/t1/", "u1/t1/b.txt"] : List String).countP
          (fun j => j == "u1/t1/b.txt") = 1)
    ∧ unsupportedExtClaim envW ["u1/t1/a.heic", "u1/t1/", "u1/t1/b.txt"] "u1/t1/b.txt" :=
  ⟨⟨by decide, by decide, by decide⟩,
    unsupported_ext_always_fails envW _ _ (by decide) (by decide) (by decide)⟩

/-- C4: when the listing is non-empty but zero keys normalize successfully,
the handler returns HTTP 200 with the explanatory message and the full
failure list, and never issues an inference request. -/
theorem all_failed_returns_200_no_inference (env : AppEnv) (d : ReqData)
    (hm : pyFalsy (extractFields d).memberId = false)
    (hr : pyFalsy (extractFields d).retripId = false)
    (hb : pyFalsy env.bucketName = false)
    (hl : env.listError = none)
    (he : (listObjectsFirstPage env (requestScope d)).isEmpty = false)
    (hp : (runNormalizer env
        (listObjectsFirstPage env (requestScope d))).processed.isEmpty = true) :
    allFailedClaim env d := by
  unfold allFailedClaim
  refine ⟨?_, ?_, ?_, ?_⟩ <;> simp [runHandler, hm, hr, hb, hl, he, hp]

/-- C4 witness: every fetch fails, so all enumerated keys fail
normalization and the analyzer is never invoked. -/
theorem all_failed_returns_200_no_inference_witness :
    ((listObjectsFirstPage envFail (requestScope dW)).isEmpty = false
      ∧ (runNormalizer envFail
          (listObjectsFirstPage envFail (requestScope dW))).processed.isEmpty = true)
    ∧ allFailedClaim envFail dW :=
  ⟨⟨by decide, by decide⟩,
    all_failed_returns_200_no_inference envFail dW (by decide) (by decide) (by decide)
      (by decide) (by decide) (by decide)⟩

/-- C5: a request missing memberId or retripId (after wrapper extraction)
gets HTTP 400 with the explanatory error before any storage interaction,
and the bucket-name configuration check runs only after that validation,
its absence giving the distinct HTTP 500 configuration error (also before
any storage interaction). -/
theorem validation_precedes_storage (env : AppEnv) (d : ReqData) :
    validationClaim env d := by
  constructor
  · intro hmr
    have hcond : (pyFalsy (extractFields d).memberId
        || pyFalsy (extractFields d).retripId) = true := by
      rcases hmr with h | h <;> simp [h]
    refine ⟨?_, ?_, ?_, ?_⟩ <;> simp [runHandler, hcond]
  · intro hm hr hb
    refine ⟨?_, ?_, ?_, ?_⟩ <;> simp [runHandler, hm, hr, hb]

/-- C5 witness: a request body missing retripId is rejected with 400 and
zero storage calls. -/
theorem validation_precedes_storage_witness :
    (pyFalsy (extractFields dNoRetrip).retripId = true)
    ∧ ((runHandler envW (some dNoRetrip)).response.status = 400
      ∧ (runHandler envW (some dNoRetrip)).response.error
          = some "memberId와 retripId가 필요합니다."
      ∧ (runHandler envW (some dNoRetrip)).listCalls = 0
      ∧ (runHandler envW (some dNoRetrip)).fetched = []) :=
  ⟨by decide, (validation_precedes_storage envW dNoRetrip).1 (Or.inr (by decide))⟩

/-- C8: an empty storage listing yields HTTP 200 with a message that
mentions the prefix, and the body has neither a travel_image_analysis nor
an error field. -/
theorem empty_listing_returns_200 (env : AppEnv) (d : ReqData)
    (hm : pyFalsy (extractFields d).memberId = false)
    (hr : pyFalsy (extractFields d).retripId = false)
    (hb : pyFalsy env.bucketName = false)
    (hl : env.listError = none)
    (he : (listObjectsFirstPage env (requestScope d)).isEmpty = true) :
    emptyListingClaim env d := by
  unfold emptyListingClaim
  refine ⟨?_, ?_, ⟨"'", "' 폴더에 이미지가 없습니다.", rfl⟩, ?_, ?_⟩ <;>
    simp [runHandler, hm, hr, hb, hl, he]

/-- C8 witness: the empty-bucket environment with scope u1/t1/. -/
theorem empty_listing_returns_200_witness :
    ((listObjectsFirstPage envEmpty (requestScope dW)).isEmpty = true)
    ∧ emptyListingClaim envEmpty dW :=
  ⟨by decide,
    empty_listing_returns_200 envEmpty dW (by decide) (by decide) (by decide)
      (by decide) (by decide)⟩

/-- C6: on the path that reaches the Analyzer, a non-parseable inference
response yields HTTP 500 carrying the literal raw text and no
travel_image_analysis field, while an inference call that returns no text
yields a different HTTP 500 body with no raw text; both carry the
accumulated failure list. -/
theorem inference_error_paths (env : AppEnv) (d : ReqData)
    (hm : pyFalsy (extractFields d).memberId = false)
    (hr : pyFalsy (extractFields d).retripId = false)
    (hb : pyFalsy env.bucketName = false)
    (hl : env.listError = none)
    (he : (listObjectsFirstPage env (requestScope d)).isEmpty = false)
    (hp : (runNormalizer env
        (listObjectsFirstPage env (requestScope d))).processed.isEmpty = false) :
    inferenceErrorClaim env d := by
  unfold inferenceErrorClaim
  refine ⟨?_, ?_, ?_⟩
  · intro txt hc ht hj
    simp [runHandler, analyze_images_with_gpt4o, hm, hr, hb, hl, he, hp, hc, ht, hj]
  · intro hc
    simp [runHandler, analyze_images_with_gpt4o, hm, hr, hb, hl, he, hp, hc]
  · decide

/-- C6 witness: the witness environment returns the non-JSON text and the
handler surfaces the parse-failure 500 with the raw text. -/
theorem inference_error_paths_witness :
    (envW.chatCreate
        (buildChatRequest
          (runNormalizer envW (listObjectsFirstPage envW (requestScope dW))).processed
          (travelAnalysisPrompt (extractFields dW).mainLocationLat
            (extractFields dW).mainLocationLng)) = some "notjson")
    ∧ inferenceErrorClaim envW dW :=
  ⟨rfl,
    inference_error_paths envW dW (by decide) (by decide) (by decide) (by decide)
      (by decide) (by decide)⟩

/-- C9: at most one inference request is ever issued per handler run, and
an issued request is exactly the single user turn consisting of the
instruction text block followed by the normalized image payloads in
storage-listing order, each an inline base64 JPEG data URL, with JSON
output requested and the 2000-token output bound. -/
theorem analyzer_single_ordered_request (env : AppEnv) (d : ReqData) :
    analyzerRequestClaim env d := by
  unfold analyzerRequestClaim
  refine ⟨?_, ?_, ?_⟩
  · rcases gptRequests_cases env d with h | h <;> simp [h]
  · intro req hreq
    rcases gptRequests_cases env d with h | h
    · rw [h] at hreq
      cases hreq
    · rw [h] at hreq
      have hr : req = buildChatRequest
          ((listObjectsFirstPage env (requestScope d)).filterMap (payloadOf env))
          (travelAnalysisPrompt (extractFields d).mainLocationLat
            (extractFields d).mainLocationLng) := by
        simpa using hreq
      subst hr
      exact ⟨rfl, rfl, rfl, rfl, rfl⟩
  · intro u hu
    rcases List.mem_filterMap.mp hu with ⟨k, _hk, hpk⟩
    exact (payloadOf_props env k u hpk).2

/-- C9 witness: the witness environment issues exactly one request. -/
theorem analyzer_single_ordered_request_witness :
    (runHandler envW (some dW)).gptRequests.length = 1
    ∧ analyzerRequestClaim envW dW :=
  ⟨by decide, analyzer_single_ordered_request envW dW⟩

/-- C10: every per-item fetch exception is caught inside the download
helper and becomes a single per-item failure record with the download
failure reason; the loop continues and the request proceeds; and with a
healthy listing no response carries an aggregate storage-error body. -/
theorem download_errors_isolated (env : AppEnv) (d : ReqData) :
    downloadIsolationClaim env d := by
  unfold downloadIsolationClaim
  refine ⟨?_, ?_, ?_, ?_⟩
  · intro k e he
    simp [download_image_from_s3, he]
  · rintro k h1 h2 ⟨e, he⟩
    have hstep := stepDownloadFail env k h1 h2 e he
    exact ⟨by simp [failureOf, hstep], by simp [payloadOf, hstep]⟩
  · rintro keys k acc h1 h2 ⟨e, he⟩
    have hstep := stepDownloadFail env k h1 h2 e he
    simp [normalizeLoop, hstep]
  · intro hl h500
    exact no_aggregate_500_without_listError env d hl h500

/-- C10 witness: an environment whose every fetch raises
NoCredentialsError while the listing is healthy. -/
theorem download_errors_isolated_witness :
    (envFail.getObject "u1/t1/a.heic" = Except.error S3Error.noCredentials
      ∧ envFail.listError = none)
    ∧ downloadIsolationClaim envFail dW :=
  ⟨⟨rfl, rfl⟩, download_errors_isolated envFail dW⟩
